import Mathlib

/-!
Verification of the `buildController` reactive-controller pattern
(`src/unnamed/part_000`, exported from `controller/headless-controller.ts`).

The controller wraps an external Store (`engine`). Its closure holds one
mutable variable `prevState : string`, shared by every subscription made on
the same controller. `subscribe(listener)` invokes the listener once,
captures `prevState = JSON.stringify(this.state)` (no try/catch, so a
serialization failure escapes `subscribe`), and registers one callback with
the Store. On each Store notification the callback runs `hasStateChanged`,
which serializes the current derived state inside a try/catch: on success it
stores the new serialization into `prevState` and reports whether it differed;
on failure it logs a warning, leaves `prevState` alone and reports `true`.
If it reported a change, the callback invokes the listener.

The Store itself (`Engine.subscribe`, a Redux store) is not part of the
sources in scope; its registration list, in-order notification, and
idempotent removal-based unsubscribe are modelled from the spec (section 6:
`onUpdate(callback) -> Unsubscribe`, unsubscribe removes the callback,
calling it more than once is a no-op; section 5: listeners run in
registration order within one notification).

The embedding is parameterized over the Store state type `σ` and the derived
state type `δ`, with `derive` the controller's `state` projection and
`serialize` modelling `JSON.stringify` (`none` = the stringification throws,
e.g. on a circular reference).
-/

/-- The controller's binding to a Store: the derived-`state` projection and
the serialization used for change detection. `serialize d = none` models
`JSON.stringify` throwing on `d`. -/
structure Model (σ δ : Type) where
  derive : σ → δ
  serialize : δ → Option String

/-- Observable events emitted while the controller code runs: an invocation
of a subscription's listener, an assignment to the shared `prevState`
closure variable, and the `console.warn` in `hasStateChanged`. -/
inductive Event where
  | listenerCall (id : Nat)
  | snapshotWrite (s : String)
  | warn
deriving DecidableEq, Repr

/-- The run-time state of one controller and its Store.

* `storeState` — the Store's current state;
* `registered` — ids of the controller-internal callbacks currently held by
  the Store, in registration order (modelled from the spec, section 6);
* `nextId` — fresh id for the next registration;
* `prevState` — the single `prevState` closure variable of
  `buildController`, shared by all subscriptions (`none` = still
  `undefined`). -/
structure Sys (σ : Type) where
  storeState : σ
  registered : List Nat
  nextId : Nat
  prevState : Option String
deriving Repr

/-- `hasStateChanged(currentState)` followed by the callback body
`if (hasStateChanged(this.state)) { listener(); }`, for the subscription
with id `id`: returns the new value of `prevState` and the emitted events.
On successful serialization, `prevState` is assigned the new string and the
listener fires iff it differed (note the snapshot write precedes the
listener call, as in the source); on failure, a warning is logged,
`prevState` is left unchanged and the listener fires (fail-open). -/
def runCallback {σ δ : Type} (m : Model σ δ) (prev : Option String)
    (cur : δ) (id : Nat) : Option String × List Event :=
  match m.serialize cur with
  | some str =>
    if prev = some str then
      (some str, [Event.snapshotWrite str])
    else
      (some str, [Event.snapshotWrite str, Event.listenerCall id])
  | none => (prev, [Event.warn, Event.listenerCall id])

/-- The Store notifying its registered callbacks in registration order
(notification order modelled from the spec, section 5); each callback
re-reads the derived state `cur` and runs `runCallback`, threading the
shared `prevState`. -/
def notifyAll {σ δ : Type} (m : Model σ δ) (cur : δ) :
    Option String → List Nat → Option String × List Event
  | prev, [] => (prev, [])
  | prev, id :: rest =>
    let r := runCallback m prev cur id
    let r2 := notifyAll m cur r.1 rest
    (r2.1, r.2 ++ r2.2)

/-- A committed Store update to `newState` followed by the notification of
every registered callback. Returns the new system state and the events. -/
def processUpdate {σ δ : Type} (m : Model σ δ) (sys : Sys σ)
    (newState : σ) : Sys σ × List Event :=
  let cur := m.derive newState
  let r := notifyAll m cur sys.prevState sys.registered
  ({ sys with storeState := newState, prevState := r.1 }, r.2)

/-- A sequence of committed Store updates, notifications included. -/
def processUpdates {σ δ : Type} (m : Model σ δ) (sys : Sys σ) :
    List σ → Sys σ × List Event
  | [] => (sys, [])
  | s :: rest =>
    let r := processUpdate m sys s
    let r2 := processUpdates m r.1 rest
    (r2.1, r.2 ++ r2.2)

/-- `subscribe(listener)` from the source: invokes the listener once, then
runs `prevState = JSON.stringify(this.state)` outside any try/catch — if the
stringification throws, the exception escapes `subscribe` (`Except.error`,
carrying the state and the events so far) and nothing is registered with the
Store; otherwise one callback is registered and its id (standing for the
returned unsubscribe handle) is returned. -/
def subscribe {σ δ : Type} (m : Model σ δ) (sys : Sys σ) :
    Except (Sys σ × List Event) (Sys σ × List Event × Nat) :=
  let i := sys.nextId
  match m.serialize (m.derive sys.storeState) with
  | some str =>
    Except.ok ({ sys with prevState := some str,
                          registered := sys.registered ++ [i],
                          nextId := i + 1 },
               [Event.listenerCall i, Event.snapshotWrite str], i)
  | none =>
    Except.error ({ sys with nextId := i + 1 }, [Event.listenerCall i])

/-- The unsubscribe function for registration `id`: removes the callback
from the Store's list. Modelled from the spec (section 6): removal-based,
so a second call finds nothing to remove and is a no-op; it never throws. -/
def unsubscribe {σ : Type} (sys : Sys σ) (id : Nat) : Sys σ :=
  { sys with registered := sys.registered.filter (fun j => j ≠ id) }

/-- The ids of the listeners invoked in an event trace, in order. -/
def listenerIds : List Event → List Nat
  | [] => []
  | Event.listenerCall i :: rest => i :: listenerIds rest
  | _ :: rest => listenerIds rest

/-! ### Concrete instances used by counterexamples and witnesses -/

/-- A distinct serialization string for each natural number. -/
def natStr (n : Nat) : String := String.mk (List.replicate n 'x')

/-- A controller over a `Nat`-valued Store whose derived state is the whole
Store state and whose serialization always succeeds (a serialization-safe
concrete controller). -/
def mNat : Model Nat Nat := ⟨fun s => s, fun n => some (natStr n)⟩

/-- A controller whose derived state can never be serialized: the model of a
concrete controller whose `state` holds a circular reference, so that every
`JSON.stringify` of it throws. -/
def mBad : Model Nat Nat := ⟨fun s => s, fun _ => none⟩

/-- A freshly built controller over a Store in state `0`: no subscription
yet, `prevState` still `undefined`. -/
def sys0 : Sys Nat := ⟨0, [], 0, none⟩

/-- `sys0` after one successful `subscribe` on `mNat`. -/
def sys1 : Sys Nat := ⟨0, [0], 1, some (natStr 0)⟩

/-- `sys1` after a second successful `subscribe` on `mNat`: two active
subscriptions, one shared `prevState`. -/
def sys2 : Sys Nat := ⟨0, [0, 1], 2, some (natStr 0)⟩

/-! ### Helper lemmas -/

theorem listenerIds_append (a b : List Event) :
    listenerIds (a ++ b) = listenerIds a ++ listenerIds b := by
  induction a with
  | nil => rfl
  | cons e rest ih => cases e <;> simp [listenerIds, ih]

theorem listenerIds_replicate_write (n : Nat) (s : String) :
    listenerIds (List.replicate n (Event.snapshotWrite s)) = [] := by
  induction n with
  | zero => rfl
  | succ k ih => simp [List.replicate_succ, listenerIds, ih]

/-- When the serialization of the (unchanged) current derived state equals
the shared snapshot, every callback leaves the snapshot alone (rewriting the
same string) and fires no listener. -/
theorem notifyAll_same {σ δ : Type} (m : Model σ δ) {cur : δ} {str : String}
    (h : m.serialize cur = some str) :
    ∀ ids, notifyAll m cur (some str) ids =
      (some str, List.replicate ids.length (Event.snapshotWrite str)) := by
  intro ids
  induction ids with
  | nil => rfl
  | cons id rest ih =>
    simp [notifyAll, runCallback, h, ih, List.replicate_succ]

/-- A changed update with at least one registered callback: the first
callback writes the new snapshot and fires its listener; every later
callback then sees an unchanged snapshot. -/
theorem notifyAll_changed {σ δ : Type} (m : Model σ δ) {cur : δ} {str : String}
    {prev : Option String} (h : m.serialize cur = some str)
    (hprev : prev ≠ some str) (i : Nat) (rest : List Nat) :
    notifyAll m cur prev (i :: rest) =
      (some str, Event.snapshotWrite str :: Event.listenerCall i ::
        List.replicate rest.length (Event.snapshotWrite str)) := by
  simp [notifyAll, runCallback, h, hprev, notifyAll_same m h]

/-- When serialization of the current derived state fails, every callback
warns, leaves the snapshot alone, and fires its listener (fail-open). -/
theorem notifyAll_fail {σ δ : Type} (m : Model σ δ) {cur : δ}
    (h : m.serialize cur = none) :
    ∀ ids prev, (notifyAll m cur prev ids).1 = prev ∧
      ∀ i ∈ ids, Event.listenerCall i ∈ (notifyAll m cur prev ids).2 ∧
        Event.warn ∈ (notifyAll m cur prev ids).2 := by
  intro ids
  induction ids with
  | nil => exact fun _ => ⟨rfl, by simp⟩
  | cons id rest ih =>
    intro prev
    refine ⟨by simp [notifyAll, runCallback, h, (ih prev).1], ?_⟩
    intro i hi
    rcases List.mem_cons.mp hi with hEq | hMem
    · subst hEq; simp [notifyAll, runCallback, h]
    · have := (ih prev).2 i hMem
      simp only [notifyAll, runCallback, h, List.mem_append]
      exact ⟨Or.inr this.1, Or.inl (by simp)⟩

theorem count_call_replicate_write (i n : Nat) (s : String) :
    (List.replicate n (Event.snapshotWrite s)).count (Event.listenerCall i) = 0 := by
  simp [List.count_replicate]

/-- A callback never fires a listener other than its own. -/
theorem runCallback_count_ne {σ δ : Type} (m : Model σ δ) (prev : Option String)
    (cur : δ) (id i : Nat) (hne : i ≠ id) :
    ((runCallback m prev cur id).2).count (Event.listenerCall i) = 0 := by
  unfold runCallback
  cases h : m.serialize cur with
  | some str =>
    by_cases hp : prev = some str <;>
      simp [hp, List.count_cons, Ne.symm hne]
  | none => simp [List.count_cons, Ne.symm hne]

/-- A callback not registered for id `i` is never the source of a call of
listener `i`: folding over any id list avoiding `i` yields no such call. -/
theorem notifyAll_count_not_mem {σ δ : Type} (m : Model σ δ) (cur : δ) (i : Nat) :
    ∀ ids prev, i ∉ ids →
      ((notifyAll m cur prev ids).2).count (Event.listenerCall i) = 0 := by
  intro ids
  induction ids with
  | nil => intro prev _; rfl
  | cons id rest ih =>
    intro prev hnot
    have hne : i ≠ id := fun h => hnot (h ▸ List.mem_cons_self id rest)
    have hrest : i ∉ rest := fun h => hnot (List.mem_cons_of_mem id h)
    simp only [notifyAll, List.count_append]
    rw [runCallback_count_ne m prev cur id i hne, ih _ hrest]

/-- A Store update does not touch the registration list. -/
theorem processUpdate_registered {σ δ : Type} (m : Model σ δ) (sys : Sys σ)
    (s' : σ) : ((processUpdate m sys s').1).registered = sys.registered := rfl

/-- Across any sequence of updates, a listener whose id is not registered is
never invoked. -/
theorem processUpdates_count_not_mem {σ δ : Type} (m : Model σ δ) (i : Nat) :
    ∀ (us : List σ) (sys : Sys σ), i ∉ sys.registered →
      ((processUpdates m sys us).2).count (Event.listenerCall i) = 0 := by
  intro us
  induction us with
  | nil => intro sys _; rfl
  | cons u rest ih =>
    intro sys hnot
    simp only [processUpdates, processUpdate, List.count_append]
    rw [notifyAll_count_not_mem m _ i sys.registered sys.prevState hnot]
    rw [Nat.zero_add]
    exact ih _ hnot

/-- The ids of the listeners fired by one notification round form a
subsequence of the registration list: callbacks run in registration order,
each firing at most its own listener. -/
theorem listenerIds_notifyAll_sublist {σ δ : Type} (m : Model σ δ) (cur : δ) :
    ∀ ids prev, List.Sublist (listenerIds (notifyAll m cur prev ids).2) ids := by
  intro ids
  induction ids with
  | nil => intro prev; exact List.nil_sublist []
  | cons id rest ih =>
    intro prev
    have hids : listenerIds (notifyAll m cur prev (id :: rest)).2 =
        listenerIds (runCallback m prev cur id).2 ++
          listenerIds (notifyAll m cur (runCallback m prev cur id).1 rest).2 := by
      simp only [notifyAll]
      exact listenerIds_append _ _
    rw [hids]
    have hhead : listenerIds (runCallback m prev cur id).2 = [] ∨
        listenerIds (runCallback m prev cur id).2 = [id] := by
      unfold runCallback
      cases h : m.serialize cur with
      | some str =>
        by_cases hp : prev = some str <;> simp [hp, listenerIds]
      | none => simp [listenerIds]
    rcases hhead with h0 | h1
    · rw [h0, List.nil_append]
      exact List.Sublist.cons id (ih _)
    · rw [h1, List.singleton_append]
      exact List.Sublist.cons₂ id (ih _)

/-! ### Claim theorems -/

/-- Claim C1, amended. On a Store update whose serialized derived state
differs from the shared snapshot, the earliest-registered listener is
invoked exactly once for that update; every other listener — in particular
any later-registered subscription on the same controller — is not invoked
at all, because the first callback overwrites the shared `prevState` before
the later callbacks run their comparison. -/
theorem change_detection_first_listener {σ δ : Type} (m : Model σ δ)
    (sys : Sys σ) (s' : σ) (i : Nat) (rest : List Nat) (str : String)
    (hreg : sys.registered = i :: rest)
    (hser : m.serialize (m.derive s') = some str)
    (hprev : sys.prevState ≠ some str) :
    ((processUpdate m sys s').2).count (Event.listenerCall i) = 1 ∧
    ∀ j, j ≠ i → ((processUpdate m sys s').2).count (Event.listenerCall j) = 0 := by
  have htr : (processUpdate m sys s').2 =
      Event.snapshotWrite str :: Event.listenerCall i ::
        List.replicate rest.length (Event.snapshotWrite str) := by
    simp only [processUpdate, hreg, notifyAll_changed m hser hprev i rest]
  constructor
  · rw [htr]
    simp [List.count_cons, List.count_replicate]
  · intro j hj
    rw [htr]
    simp [List.count_cons, List.count_replicate, Ne.symm hj]

/-- Claim C1 witness: the controller `sys2` (two subscriptions, shared
snapshot of state `0`) on the state-changing update to `1`: listener 0 fires
exactly once, listener 1 not at all. -/
theorem change_detection_first_listener_witness :
    ((processUpdate mNat sys2 1).2).count (Event.listenerCall 0) = 1 ∧
    ((processUpdate mNat sys2 1).2).count (Event.listenerCall 1) = 0 := by
  have h := change_detection_first_listener mNat sys2 1 0 [1] (natStr 1) rfl rfl
    (by decide)
  exact ⟨h.1, h.2 1 (by decide)⟩

/-- Claim C1 counterexample. The claim as stated — every subscription's
listener is invoked exactly once on a state-changing update — is false:
on `sys2` the update to `1` changes the serialized derived state
(`natStr 1 ≠ natStr 0`), subscription `1` is registered, yet its listener
is invoked zero times (the first callback already refreshed the shared
snapshot). -/
theorem change_detection_second_listener_missed :
    mNat.serialize (mNat.derive 1) = some (natStr 1) ∧
    sys2.prevState = some (natStr 0) ∧
    natStr 1 ≠ natStr 0 ∧
    (1 : Nat) ∈ sys2.registered ∧
    ((processUpdate mNat sys2 1).2).count (Event.listenerCall 1) = 0 :=
  ⟨rfl, rfl, by decide, by decide, rfl⟩

/-- Claim C2, confirmed. If a Store update produces a derived state that is
structurally equal to the previous derived state (whose serialization is the
stored snapshot), no listener is invoked on that update and the snapshot
value is unchanged — change detection compares serializations, never
references. -/
theorem change_suppression {σ δ : Type} (m : Model σ δ) (sys : Sys σ)
    (s' : σ) (dPrev : δ) (str : String)
    (hd : m.derive s' = dPrev)
    (hser : m.serialize dPrev = some str)
    (hprev : sys.prevState = some str) :
    listenerIds (processUpdate m sys s').2 = [] ∧
    ((processUpdate m sys s').1).prevState = sys.prevState := by
  have hser' : m.serialize (m.derive s') = some str := by rw [hd]; exact hser
  constructor
  · simp only [processUpdate, hprev, notifyAll_same m hser']
    exact listenerIds_replicate_write _ _
  · simp only [processUpdate, hprev, notifyAll_same m hser']

/-- Claim C2 witness: a store in state `1` with snapshot `natStr 1` gets an
update to (a new copy of) `1`; no listener is invoked and the snapshot keeps
its value. -/
theorem change_suppression_witness :
    listenerIds (processUpdate mNat ⟨1, [0], 1, some (natStr 1)⟩ 1).2 = [] ∧
    ((processUpdate mNat ⟨1, [0], 1, some (natStr 1)⟩ 1).1).prevState =
      some (natStr 1) := by
  have h := change_suppression mNat ⟨1, [0], 1, some (natStr 1)⟩ 1 1 (natStr 1)
    rfl rfl rfl
  exact ⟨h.1, h.2⟩

/-- Claim C3 counterexample. The claim — `subscribe` never lets an exception
escape, and on non-serializable state the listener is still invoked on the
next Store update — is false at `mBad` (a controller whose derived state
never serializes) and a fresh controller `sys0`: the initial
`prevState = JSON.stringify(this.state)` in `subscribe` is outside any
try/catch, so the serialization exception escapes (`isOk = false`), the
listener was invoked exactly once before the escape, no callback was
registered, and the next Store update invokes it zero times. -/
theorem subscribe_serialize_error_escapes :
    (subscribe mBad sys0).isOk = false ∧
    subscribe mBad sys0 = Except.error (⟨0, [], 1, none⟩, [Event.listenerCall 0]) ∧
    ((processUpdate mBad ⟨0, [], 1, none⟩ 1).2).count (Event.listenerCall 0) = 0 :=
  ⟨rfl, rfl, rfl⟩

/-- Claim C3, amended. An exception escapes `subscribe` exactly on the
uncaught initial-snapshot serialization (`prevState = JSON.stringify(...)`):
whenever `subscribe` ends in an escaped exception, the derived state was
non-serializable, the listener had already been invoked exactly once, and
nothing was registered with the Store (so no later update invokes it); only
serialization failures during later change detection are caught
(fail-open, see the C4 theorem). -/
theorem subscribe_error_characterization {σ δ : Type} (m : Model σ δ)
    (sys sysE : Sys σ) (evs : List Event)
    (h : subscribe m sys = Except.error (sysE, evs)) :
    m.serialize (m.derive sys.storeState) = none ∧
    evs = [Event.listenerCall sys.nextId] ∧
    sysE.registered = sys.registered ∧
    sysE.prevState = sys.prevState := by
  cases hs : m.serialize (m.derive sys.storeState) with
  | some str => simp [subscribe, hs] at h
  | none =>
    simp only [subscribe, hs] at h
    injection h with h'
    obtain ⟨h1, h2⟩ := Prod.mk.injEq .. ▸ h'
    refine ⟨rfl, h2.symm, ?_, ?_⟩
    · rw [← h1]
    · rw [← h1]

/-- Claim C3 witness for the amended theorem, at `mBad` and `sys0`. -/
theorem subscribe_error_characterization_witness :
    mBad.serialize (mBad.derive sys0.storeState) = none ∧
    [Event.listenerCall 0] = [Event.listenerCall sys0.nextId] ∧
    (Sys.registered ⟨0, [], 1, none⟩ : List Nat) = sys0.registered ∧
    Sys.prevState (⟨0, [], 1, none⟩ : Sys Nat) = sys0.prevState :=
  subscribe_error_characterization mBad sys0 ⟨0, [], 1, none⟩
    [Event.listenerCall 0] rfl

/-- Claim C4, confirmed. If serialization of the derived state fails during
change detection on a Store update notification, the failure is treated as
"state changed": the listener of every registered subscription is invoked,
the `console.warn` diagnostic is logged, and `prevState` is left untouched.
`processUpdate` is a total function, so no exception propagates out of the
notification callback. -/
theorem detection_failure_fail_open {σ δ : Type} (m : Model σ δ) (sys : Sys σ)
    (s' : σ) (i : Nat) (hmem : i ∈ sys.registered)
    (hser : m.serialize (m.derive s') = none) :
    Event.listenerCall i ∈ (processUpdate m sys s').2 ∧
    Event.warn ∈ (processUpdate m sys s').2 ∧
    ((processUpdate m sys s').1).prevState = sys.prevState := by
  have h := notifyAll_fail m hser sys.registered sys.prevState
  exact ⟨(h.2 i hmem).1, (h.2 i hmem).2, h.1⟩

/-- Claim C4 witness: a registered subscription on `mBad` (state never
serializes); the update to `1` warns, fires the listener, and keeps the
snapshot. -/
theorem detection_failure_fail_open_witness :
    Event.listenerCall 0 ∈ (processUpdate mBad ⟨0, [0], 1, some (natStr 0)⟩ 1).2 ∧
    Event.warn ∈ (processUpdate mBad ⟨0, [0], 1, some (natStr 0)⟩ 1).2 ∧
    ((processUpdate mBad ⟨0, [0], 1, some (natStr 0)⟩ 1).1).prevState =
      some (natStr 0) :=
  detection_failure_fail_open mBad ⟨0, [0], 1, some (natStr 0)⟩ 1 0 (by decide) rfl

/-- Claim C5, confirmed. When the derived state serializes to `str`,
`subscribe` invokes the listener exactly once before returning (the emitted
events are exactly one `listenerCall` followed by the snapshot capture), the
serialized snapshot `str` is stored as the change-detection baseline
immediately after that first invocation, and exactly one callback is
registered. -/
theorem subscribe_initial_invocation {σ δ : Type} (m : Model σ δ) (sys : Sys σ)
    (str : String) (hser : m.serialize (m.derive sys.storeState) = some str) :
    subscribe m sys = Except.ok
      ({ sys with prevState := some str,
                  registered := sys.registered ++ [sys.nextId],
                  nextId := sys.nextId + 1 },
       [Event.listenerCall sys.nextId, Event.snapshotWrite str], sys.nextId) := by
  simp [subscribe, hser]

/-- Claim C5 witness: the first `subscribe` on a fresh `mNat` controller. -/
theorem subscribe_initial_invocation_witness :
    subscribe mNat sys0 = Except.ok
      (sys1, [Event.listenerCall 0, Event.snapshotWrite (natStr 0)], 0) :=
  subscribe_initial_invocation mNat sys0 (natStr 0) rfl

/-- Claim C6, confirmed (store mechanics modelled from the spec). After the
unsubscribe function for registration `id` has run, no sequence of further
Store updates ever invokes that registration's listener again. -/
theorem post_unsubscribe_silence {σ δ : Type} (m : Model σ δ) (sys : Sys σ)
    (id : Nat) (updates : List σ) :
    ((processUpdates m (unsubscribe sys id) updates).2).count
      (Event.listenerCall id) = 0 := by
  apply processUpdates_count_not_mem
  intro hmem
  simp [unsubscribe, List.mem_filter] at hmem

/-- Claim C7, confirmed (store mechanics modelled from the spec). Calling
the unsubscribe function twice leaves the Store's listener registrations
exactly as one call does; being a total function, the second call throws no
error. -/
theorem unsubscribe_idempotent {σ : Type} (sys : Sys σ) (id : Nat) :
    unsubscribe (unsubscribe sys id) id = unsubscribe sys id := by
  simp [unsubscribe, Sys.mk.injEq, List.filter_filter]

/-- Claim C8 counterexample. "Every Controller registers exactly one
callback with the Store" is false: after two `subscribe` calls the one
controller holds two registered callbacks (`sys2.registered.length = 2`). -/
theorem controller_two_callbacks :
    subscribe mNat sys0 = Except.ok
      (sys1, [Event.listenerCall 0, Event.snapshotWrite (natStr 0)], 0) ∧
    subscribe mNat sys1 = Except.ok
      (sys2, [Event.listenerCall 1, Event.snapshotWrite (natStr 0)], 1) ∧
    sys2.registered.length = 2 ∧
    sys2.registered.length ≠ 1 :=
  ⟨rfl, rfl, rfl, by decide⟩

/-- Claim C8, amended. Each call to `subscribe` registers exactly one
callback with the Store (so a controller has one callback per active
subscription, not one per controller); on a single Store update the
callbacks run in registration order, each invoking its own listener
directly, so the listeners that do fire are fired in registration order
(the fired ids form a subsequence of the registration list). -/
theorem per_subscription_callback_order {σ δ : Type} (m : Model σ δ)
    (sys : Sys σ) (s' : σ) (str : String)
    (hser : m.serialize (m.derive sys.storeState) = some str) :
    (∃ evs k, subscribe m sys = Except.ok
        ({ sys with prevState := some str,
                    registered := sys.registered ++ [sys.nextId],
                    nextId := sys.nextId + 1 }, evs, k)) ∧
    List.Sublist (listenerIds (processUpdate m sys s').2) sys.registered := by
  refine ⟨⟨[Event.listenerCall sys.nextId, Event.snapshotWrite str],
    sys.nextId, ?_⟩, ?_⟩
  · simp [subscribe, hser]
  · simp only [processUpdate]
    exact listenerIds_notifyAll_sublist m _ sys.registered sys.prevState

/-- Claim C8 witness for the amended theorem, at `mNat` and `sys2`. -/
theorem per_subscription_callback_order_witness :
    (∃ evs k, subscribe mNat sys2 = Except.ok
        ({ sys2 with prevState := some (natStr 0),
                     registered := sys2.registered ++ [sys2.nextId],
                     nextId := sys2.nextId + 1 }, evs, k)) ∧
    List.Sublist (listenerIds (processUpdate mNat sys2 1).2) sys2.registered :=
  per_subscription_callback_order mNat sys2 1 (natStr 0) rfl

/-- Claim C9 counterexample. "The listener is invoked first and the stored
snapshot is updated afterwards" is false: on the state-changing update of a
single-subscription controller the emitted events are the snapshot write
*followed by* the listener call (the write happens inside `hasStateChanged`,
before the callback reaches `listener()`), so the first event is not the
listener call. -/
theorem snapshot_written_before_listener :
    (processUpdate mNat sys1 1).2 =
      [Event.snapshotWrite (natStr 1), Event.listenerCall 0] ∧
    (processUpdate mNat sys1 1).2.head? ≠ some (Event.listenerCall 0) ∧
    Event.listenerCall 0 ∈ (processUpdate mNat sys1 1).2 :=
  ⟨rfl, by decide, by decide⟩

/-- Claim C9, amended. On a Store update notification for a
single-subscription controller: when the new serialization differs from the
stored snapshot, the snapshot is updated first (inside change detection) and
the listener is invoked afterwards; when the serializations are identical,
no listener is invoked and the snapshot keeps its value (the re-assignment
writes the identical string, so there is no observable change). -/
theorem notification_snapshot_order {σ δ : Type} (m : Model σ δ) (sys : Sys σ)
    (s' : σ) (i : Nat) (p str : String)
    (hreg : sys.registered = [i]) (hprev : sys.prevState = some p)
    (hser : m.serialize (m.derive s') = some str) :
    (p ≠ str →
      (processUpdate m sys s').2 =
        [Event.snapshotWrite str, Event.listenerCall i] ∧
      ((processUpdate m sys s').1).prevState = some str) ∧
    (p = str →
      (processUpdate m sys s').2 = [Event.snapshotWrite str] ∧
      ((processUpdate m sys s').1).prevState = sys.prevState) := by
  constructor
  · intro hne
    have hprev' : sys.prevState ≠ some str := by
      rw [hprev]; simp [hne]
    constructor
    · simp [processUpdate, hreg, notifyAll_changed m hser hprev' i []]
    · simp [processUpdate, hreg, notifyAll_changed m hser hprev' i []]
  · intro heq
    subst heq
    constructor
    · simp [processUpdate, hreg, hprev, notifyAll_same m hser]
    · simp [processUpdate, hreg, hprev, notifyAll_same m hser]

/-- Claim C9 witness for the amended theorem: the single-subscription
controller `sys1`, whose snapshot is `natStr 0`, on an update whose derived
state serializes to `natStr 1`. -/
theorem notification_snapshot_order_witness :
    (natStr 0 ≠ natStr 1 →
      (processUpdate mNat sys1 1).2 =
        [Event.snapshotWrite (natStr 1), Event.listenerCall 0] ∧
      ((processUpdate mNat sys1 1).1).prevState = some (natStr 1)) ∧
    (natStr 0 = natStr 1 →
      (processUpdate mNat sys1 1).2 = [Event.snapshotWrite (natStr 1)] ∧
      ((processUpdate mNat sys1 1).1).prevState = sys1.prevState) :=
  notification_snapshot_order mNat sys1 1 0 (natStr 0) (natStr 1) rfl rfl rfl

/-- Claim C10, confirmed. All subscriptions of one controller share the one
`prevState` snapshot: the second `subscribe` call rewrites the shared
baseline (its events end with the snapshot capture), and on the
state-changing update to `1` the earliest-registered callback stores the new
serialization before the second callback compares, so only the
first-registered listener is invoked (`listenerCall 0` once,
`listenerCall 1` never). -/
theorem shared_snapshot_two_subscriptions :
    subscribe mNat sys0 = Except.ok
      (sys1, [Event.listenerCall 0, Event.snapshotWrite (natStr 0)], 0) ∧
    subscribe mNat sys1 = Except.ok
      (sys2, [Event.listenerCall 1, Event.snapshotWrite (natStr 0)], 1) ∧
    processUpdate mNat sys2 1 =
      (⟨1, [0, 1], 2, some (natStr 1)⟩,
       [Event.snapshotWrite (natStr 1), Event.listenerCall 0,
        Event.snapshotWrite (natStr 1)]) ∧
    ((processUpdate mNat sys2 1).2).count (Event.listenerCall 0) = 1 ∧
    ((processUpdate mNat sys2 1).2).count (Event.listenerCall 1) = 0 :=
  ⟨rfl, rfl, rfl, rfl, rfl⟩
